import Mathlib

/-!
Verification development for the Decision-Statistics inference engine
(source: src/app.py). The numerical core is embedded shallowly:
Python float arithmetic is idealised as exact arithmetic over the rationals
and the reals, and the external scipy distribution functions (inverse CDF
and CDF of the normal and Student-t distributions) are passed in as
function parameters, constrained only by the hypotheses each theorem needs
(properties the scipy functions satisfy).
-/

namespace DecisionStatistics

/-- The sampling distribution chosen by the engine: the tagged variant
described for the selector at app.py lines 34-42. -/
inductive Dist where
  | normal : Dist
  | studentT (df : ℕ) : Dist
deriving DecidableEq

/-- Distribution dispatch of the interval-estimation path, app.py lines
34-42: normal when n is at least 30, otherwise Student-t with df = n - 1. -/
def chooseDist (n : ℕ) : Dist :=
  if 30 ≤ n then Dist.normal else Dist.studentT (n - 1)

/-- Distribution dispatch of the p-value computation, app.py line 63:
the conditional `if n >= 30` choosing the normal CDF, else the Student-t
CDF at df = n - 1 (the `df` bound at line 40). -/
def pValueDist (n : ℕ) : Dist :=
  if 30 ≤ n then Dist.normal else Dist.studentT (n - 1)

/-- Critical value, app.py lines 34-42: the inverse CDF of the chosen
distribution at (1 + confidence) / 2. The scipy quantile functions
stats.norm.ppf and stats.t.ppf are taken as parameters. -/
noncomputable def critical_value (ppfNorm : ℝ → ℝ) (ppfT : ℕ → ℝ → ℝ)
    (n : ℕ) (confidence : ℝ) : ℝ :=
  if 30 ≤ n then ppfNorm ((1 + confidence) / 2)
  else ppfT (n - 1) ((1 + confidence) / 2)

/-- Standard error, app.py line 44: std_dev / sqrt n. -/
noncomputable def standard_error (std_dev : ℝ) (n : ℕ) : ℝ :=
  std_dev / Real.sqrt n

/-- Margin of error, app.py line 45: critical value times standard error. -/
noncomputable def margin_of_error (cv se : ℝ) : ℝ := cv * se

/-- Lower confidence bound, app.py line 46. -/
noncomputable def lower_bound (mean moe : ℝ) : ℝ := mean - moe

/-- Upper confidence bound, app.py line 47. -/
noncomputable def upper_bound (mean moe : ℝ) : ℝ := mean + moe

/-- Test statistic, app.py line 62: (mean - null value) / standard error. -/
noncomputable def test_stat (mean null_hypothesis se : ℝ) : ℝ :=
  (mean - null_hypothesis) / se

/-- Two-sided p-value, app.py line 63: 2 * (1 - CDF |t|) under the normal
CDF when n is at least 30, else under the Student-t CDF with df = n - 1.
The scipy CDFs stats.norm.cdf and stats.t.cdf are taken as parameters. -/
noncomputable def p_value (cdfNorm : ℝ → ℝ) (cdfT : ℕ → ℝ → ℝ)
    (n : ℕ) (t : ℝ) : ℝ :=
  if 30 ≤ n then 2 * (1 - cdfNorm |t|) else 2 * (1 - cdfT (n - 1) |t|)

/-- Significance classification, app.py line 65: p at most 0.05. -/
def significant (p : ℝ) : Prop := p ≤ 0.05

/-- Required sample size of the N-Optimizer, app.py line 82:
ceil of (critical value * std_dev / target margin of error) squared.
The value displayed at line 84 is int(required_n). -/
noncomputable def required_n (cv std_dev target_moe : ℝ) : ℤ :=
  ⌈(cv * std_dev / target_moe) ^ 2⌉

/-- The numeric outputs the N-Optimizer section produces, app.py lines
83-84: the target margin of error it echoes and the required sample size.
No other value is computed or shown by that section. -/
noncomputable def n_optimizer_display (cv std_dev target_moe : ℝ) : List ℝ :=
  [target_moe, ((required_n cv std_dev target_moe : ℤ) : ℝ)]

/-- Failure of the raw-sample parser: the token that does not parse as a
number (the ValueError float() raises, called ParseError in the design). -/
inductive ParseError where
  | badToken (tok : List Char) : ParseError
deriving DecidableEq

/-- Splits a character sequence at every comma, the way the Python
split(",") at app.py line 26 does: n commas give n+1 fields, empty
fields included. -/
def splitOnComma (cs : List Char) : List (List Char) :=
  cs.foldr
    (fun c acc =>
      match acc with
      | [] => if c = ',' then [[], []] else [[c]]
      | g :: gs => if c = ',' then [] :: g :: gs else (c :: g) :: gs)
    [[]]

/-- Strips leading and trailing whitespace, the strip() at app.py line 26. -/
def stripChars (cs : List Char) : List Char :=
  ((cs.dropWhile Char.isWhitespace).reverse.dropWhile Char.isWhitespace).reverse

/-- Numeric value of a digit sequence read in base 10. -/
def natOfDigits (cs : List Char) : ℕ :=
  cs.foldl (fun a c => 10 * a + (c.toNat - 48)) 0

/-- Parses an unsigned decimal literal: digits with an optional decimal
point, at least one digit overall. Models the fragment of the Python
float() grammar exercised here (exponents, infinities and nan omitted). -/
def parseUnsigned (cs : List Char) : Option ℚ :=
  match cs.splitOn '.' with
  | [intPart] =>
      if intPart ≠ [] ∧ intPart.all Char.isDigit then
        some ((natOfDigits intPart : ℚ))
      else none
  | [intPart, fracPart] =>
      if (intPart ≠ [] ∨ fracPart ≠ []) ∧ intPart.all Char.isDigit ∧
          fracPart.all Char.isDigit then
        some ((natOfDigits intPart : ℚ) +
          (natOfDigits fracPart : ℚ) / (10 : ℚ) ^ fracPart.length)
      else none
  | _ => none

/-- Parses one token as a number: optional sign then an unsigned literal.
Models Python float() on a stripped token, as called at app.py line 26. -/
def parseNumber (cs : List Char) : Option ℚ :=
  match cs with
  | '+' :: rest => parseUnsigned rest
  | '-' :: rest => (parseUnsigned rest).map (fun v => -v)
  | _ => parseUnsigned cs

/-- The raw-sample parser, app.py line 26: split the text on commas, strip
each token, convert each token with float(); the first token that fails to
convert aborts the whole computation (the comprehension raises). -/
def parseSample (raw : List Char) : Except ParseError (List ℚ) :=
  (splitOnComma raw).mapM
    (fun t =>
      match parseNumber (stripChars t) with
      | some v => Except.ok v
      | none => Except.error (ParseError.badToken (stripChars t)))

/-- Arithmetic mean, np.mean at app.py line 27. -/
def sampleMean (data : List ℚ) : ℚ := data.sum / data.length

/-- Sample variance with ddof = 1: the square of np.std(data, ddof=1) at
app.py line 28, sum of squared deviations divided by n - 1. -/
def sampleVar (data : List ℚ) : ℚ :=
  ((data.map (fun x => (x - sampleMean data) ^ 2)).sum) / ((data.length : ℚ) - 1)

/-- Sample standard deviation, np.std(data, ddof=1) at app.py line 28. -/
noncomputable def sampleStd (data : List ℚ) : ℝ :=
  Real.sqrt ((sampleVar data : ℚ) : ℝ)

/-- Sum of squared deviations of a list from its mean; the denominator of
the least-squares slope computed by stats.linregress at app.py line 101. -/
def sxx (x : List ℚ) : ℚ :=
  (x.map (fun a => (a - sampleMean x) ^ 2)).sum

/-- Sum of products of paired deviations; the numerator of the
least-squares slope computed by stats.linregress at app.py line 101. -/
def sxy (x y : List ℚ) : ℚ :=
  ((x.zip y).map (fun p => (p.1 - sampleMean x) * (p.2 - sampleMean y))).sum

/-- Ordinary-least-squares slope returned by stats.linregress at app.py
line 101: covariance sum over the x deviation sum of squares. -/
def slope (x y : List ℚ) : ℚ := sxy x y / sxx x

/-- Ordinary-least-squares intercept returned by stats.linregress at
app.py line 101: mean y minus slope times mean x. -/
def intercept (x y : List ℚ) : ℚ :=
  sampleMean y - slope x y * sampleMean x

/-- Pearson correlation returned as r_value by stats.linregress at app.py
line 101: covariance sum over the geometric mean of the deviation sums. -/
noncomputable def r_value (x y : List ℚ) : ℝ :=
  ((sxy x y : ℚ) : ℝ) / Real.sqrt (((sxx x * sxx y : ℚ) : ℝ))

/-- Coefficient of determination, app.py line 102: r squared. -/
noncomputable def r_squared (x y : List ℚ) : ℝ := (r_value x y) ^ 2

/-- Fitted values at each x, app.py line 135. -/
def predictions (x y : List ℚ) : List ℚ :=
  x.map (fun i => slope x y * i + intercept x y)

/-- Residuals, app.py line 136: observed y minus fitted value, pairwise.
The source indexes both lists over range(len(y)); the guard at line 100
makes the lengths equal, so pairing by zip is the same computation. -/
def residuals (x y : List ℚ) : List ℚ :=
  (y.zip (predictions x y)).map (fun p => p.1 - p.2)

/-- Point prediction, app.py line 158: slope times x plus intercept. -/
def prediction (x y : List ℚ) (predict_x : ℚ) : ℚ :=
  slope x y * predict_x + intercept x y

/-- Default raw sample text of the univariate mode, app.py line 25. -/
def defaultRawText : List Char := "48, 52, 45, 55, 50, 49, 51".data

/-- The ParseError example input of the design document. -/
def badRawText : List Char := "48, abc, 50".data

/-- A single-token raw input: one number and no comma. -/
def singletonRawText : List Char := "5".data

/-- The token of badRawText that float() rejects. -/
def abcToken : List Char := ['a', 'b', 'c']

/-- C1: the distribution choice is deterministic in n — normal with
quantile point (1+confidence)/2 when n is at least 30, Student-t with
df = n - 1 at the same quantile point when 2 ≤ n < 30 — and the p-value
computation dispatches on the same choice as the interval estimator. -/
theorem C1_distribution_dispatch (ppfN : ℝ → ℝ) (ppfT : ℕ → ℝ → ℝ)
    (n : ℕ) (conf : ℝ) :
    (30 ≤ n →
      chooseDist n = Dist.normal ∧
      critical_value ppfN ppfT n conf = ppfN ((1 + conf) / 2)) ∧
    (2 ≤ n → n < 30 →
      chooseDist n = Dist.studentT (n - 1) ∧
      critical_value ppfN ppfT n conf = ppfT (n - 1) ((1 + conf) / 2)) ∧
    pValueDist n = chooseDist n := by
  refine ⟨fun h => ?_, fun h2 h30 => ?_, rfl⟩
  · simp [chooseDist, critical_value, h]
  · have h : ¬ 30 ≤ n := by omega
    simp [chooseDist, critical_value, h]

/-- Witness for C1 at n = 7 (the small-sample branch). -/
theorem C1_distribution_dispatch_witness :
    (2 ≤ 7 ∧ 7 < 30) ∧
    (chooseDist 7 = Dist.studentT 6 ∧
      critical_value (fun _ => 0) (fun _ _ => 1) 7 (1/2) = 1) ∧
    pValueDist 7 = chooseDist 7 :=
  ⟨⟨by norm_num, by norm_num⟩,
    (C1_distribution_dispatch (fun _ => 0) (fun _ _ => 1) 7 (1/2)).2.1
      (by norm_num) (by norm_num),
    (C1_distribution_dispatch (fun _ => 0) (fun _ _ => 1) 7 (1/2)).2.2⟩

/-- C2: with stdDev nonnegative, n at least 2, confidence in (0,1), and
quantile functions that are nonnegative at probabilities of at least one
half (as the scipy normal and Student-t quantiles are), the margin of
error is nonnegative, the interval brackets the mean, and its width is
exactly twice the margin of error. -/
theorem C2_interval_invariants (ppfN : ℝ → ℝ) (ppfT : ℕ → ℝ → ℝ)
    (mean std_dev conf : ℝ) (n : ℕ)
    (hsd : 0 ≤ std_dev) (hn : 2 ≤ n) (hc0 : 0 < conf) (hc1 : conf < 1)
    (hppfN : ∀ p : ℝ, 1/2 ≤ p → 0 ≤ ppfN p)
    (hppfT : ∀ (df : ℕ) (p : ℝ), 1/2 ≤ p → 0 ≤ ppfT df p) :
    0 ≤ margin_of_error (critical_value ppfN ppfT n conf) (standard_error std_dev n) ∧
    lower_bound mean (margin_of_error (critical_value ppfN ppfT n conf)
      (standard_error std_dev n)) ≤ mean ∧
    mean ≤ upper_bound mean (margin_of_error (critical_value ppfN ppfT n conf)
      (standard_error std_dev n)) ∧
    upper_bound mean (margin_of_error (critical_value ppfN ppfT n conf)
      (standard_error std_dev n)) -
      lower_bound mean (margin_of_error (critical_value ppfN ppfT n conf)
        (standard_error std_dev n)) =
      2 * margin_of_error (critical_value ppfN ppfT n conf)
        (standard_error std_dev n) := by
  have hhalf : (1:ℝ)/2 ≤ (1 + conf) / 2 := by linarith
  have hcv : 0 ≤ critical_value ppfN ppfT n conf := by
    unfold critical_value
    split
    · exact hppfN _ hhalf
    · exact hppfT _ _ hhalf
  have hse : 0 ≤ standard_error std_dev n :=
    div_nonneg hsd (Real.sqrt_nonneg _)
  have hmoe : 0 ≤ margin_of_error (critical_value ppfN ppfT n conf)
      (standard_error std_dev n) := mul_nonneg hcv hse
  refine ⟨hmoe, ?_, ?_, ?_⟩
  · unfold lower_bound; linarith
  · unfold upper_bound; linarith
  · unfold upper_bound lower_bound; ring

/-- Witness for C2 at mean 50, stdDev 5, n = 4, confidence one half,
with the constant-one quantile functions. -/
theorem C2_interval_invariants_witness :
    ((0:ℝ) ≤ 5 ∧ 2 ≤ 4 ∧ (0:ℝ) < 1/2 ∧ (1:ℝ)/2 < 1 ∧
      (∀ p : ℝ, 1/2 ≤ p → (0:ℝ) ≤ (fun _ : ℝ => (1:ℝ)) p) ∧
      (∀ (df : ℕ) (p : ℝ), 1/2 ≤ p → (0:ℝ) ≤ (fun (_ : ℕ) (_ : ℝ) => (1:ℝ)) df p)) ∧
    (0 ≤ margin_of_error (critical_value (fun _ => 1) (fun _ _ => 1) 4 (1/2))
        (standard_error 5 4) ∧
      lower_bound 50 (margin_of_error (critical_value (fun _ => 1) (fun _ _ => 1) 4 (1/2))
        (standard_error 5 4)) ≤ 50 ∧
      50 ≤ upper_bound 50 (margin_of_error (critical_value (fun _ => 1) (fun _ _ => 1) 4 (1/2))
        (standard_error 5 4)) ∧
      upper_bound 50 (margin_of_error (critical_value (fun _ => 1) (fun _ _ => 1) 4 (1/2))
          (standard_error 5 4)) -
        lower_bound 50 (margin_of_error (critical_value (fun _ => 1) (fun _ _ => 1) 4 (1/2))
          (standard_error 5 4)) =
        2 * margin_of_error (critical_value (fun _ => 1) (fun _ _ => 1) 4 (1/2))
          (standard_error 5 4)) :=
  ⟨⟨by norm_num, by norm_num, by norm_num, by norm_num,
      fun _ _ => by norm_num, fun _ _ _ => by norm_num⟩,
    C2_interval_invariants (fun _ => 1) (fun _ _ => 1) 50 5 (1/2) 4
      (by norm_num) (by norm_num) (by norm_num) (by norm_num)
      (fun _ _ => by norm_num) (fun _ _ _ => by norm_num)⟩

/-- C3: feeding the planner's requiredN back as the sample size, with the
same critical value and standard deviation, gives a margin of error of at
most the target. -/
theorem C3_round_trip (cv sd tmoe : ℝ) (hcv : 0 < cv) (hsd : 0 < sd)
    (ht : 0 < tmoe) :
    margin_of_error cv (standard_error sd (required_n cv sd tmoe).toNat) ≤ tmoe := by
  set q : ℝ := (cv * sd / tmoe) ^ 2 with hq_def
  have hq : 0 < q := by positivity
  have hceil : 0 < required_n cv sd tmoe := by
    unfold required_n
    exact Int.ceil_pos.mpr hq
  have hcast : (((required_n cv sd tmoe).toNat : ℕ) : ℝ) = ((required_n cv sd tmoe : ℤ) : ℝ) := by
    exact_mod_cast Int.toNat_of_nonneg (le_of_lt hceil)
  have hge : q ≤ (((required_n cv sd tmoe).toNat : ℕ) : ℝ) := by
    rw [hcast]
    exact Int.le_ceil q
  have hc : 0 < cv * sd / tmoe := by positivity
  have hsq : Real.sqrt q = cv * sd / tmoe := by
    rw [hq_def, Real.sqrt_sq (le_of_lt hc)]
  have hsqrt : cv * sd / tmoe ≤ Real.sqrt (((required_n cv sd tmoe).toNat : ℕ) : ℝ) := by
    rw [← hsq]
    exact Real.sqrt_le_sqrt hge
  have hpos : 0 < Real.sqrt (((required_n cv sd tmoe).toNat : ℕ) : ℝ) :=
    lt_of_lt_of_le hc hsqrt
  unfold margin_of_error standard_error
  rw [mul_div_assoc']
  rw [div_le_iff₀ hpos]
  calc cv * sd = (cv * sd / tmoe) * tmoe := by field_simp
    _ ≤ Real.sqrt (((required_n cv sd tmoe).toNat : ℕ) : ℝ) * tmoe := by
        exact mul_le_mul_of_nonneg_right hsqrt (le_of_lt ht)
    _ = tmoe * Real.sqrt (((required_n cv sd tmoe).toNat : ℕ) : ℝ) := by ring

/-- Witness for C3 at cv = 1, sd = 1, target 1. -/
theorem C3_round_trip_witness :
    ((0:ℝ) < 1 ∧ (0:ℝ) < 1 ∧ (0:ℝ) < 1) ∧
    margin_of_error 1 (standard_error 1 (required_n 1 1 1).toNat) ≤ 1 :=
  ⟨⟨by norm_num, by norm_num, by norm_num⟩,
    C3_round_trip 1 1 1 (by norm_num) (by norm_num) (by norm_num)⟩

/-- C4 counterexample: the N-Optimizer output at criticalValue 2,
stdDev 3, target 1 and currentN 10 contains requiredN = 36 but does not
contain the deficit max(0, requiredN - currentN) = 26 — no deficit field
is computed anywhere in the section. -/
theorem C4_no_deficit_counterexample :
    required_n 2 3 1 = 36 ∧
    ((max 0 (required_n 2 3 1 - 10) : ℤ) : ℝ) ∉ n_optimizer_display 2 3 1 := by
  have h : required_n 2 3 1 = 36 := by
    unfold required_n
    norm_num
  have h26 : ((max 0 (required_n 2 3 1 - 10) : ℤ) : ℝ) = 26 := by
    rw [h]; norm_num
  refine ⟨h, ?_⟩
  rw [h26]
  simp only [n_optimizer_display, h, List.mem_cons, List.not_mem_nil]
  norm_num

/-- C4 amended: the N-Optimizer output contains
requiredN = ceil((criticalValue * stdDev / targetMarginOfError)^2), a
positive integer; no deficit value is part of the output. -/
theorem C4_amended_output (cv sd tmoe : ℝ) (ht : 0 < tmoe) (hcv : 0 < cv)
    (hsd : 0 < sd) :
    ((required_n cv sd tmoe : ℤ) : ℝ) ∈ n_optimizer_display cv sd tmoe ∧
    1 ≤ required_n cv sd tmoe := by
  constructor
  · simp [n_optimizer_display]
  · have hq : (0:ℝ) < (cv * sd / tmoe) ^ 2 := by positivity
    unfold required_n
    have := Int.ceil_pos.mpr hq
    omega

/-- Witness for the amended C4 at criticalValue 2, stdDev 3, target 1. -/
theorem C4_amended_output_witness :
    ((0:ℝ) < 1 ∧ (0:ℝ) < 2 ∧ (0:ℝ) < 3) ∧
    (((required_n 2 3 1 : ℤ) : ℝ) ∈ n_optimizer_display 2 3 1 ∧
      1 ≤ required_n 2 3 1) :=
  ⟨⟨by norm_num, by norm_num, by norm_num⟩,
    C4_amended_output 2 3 1 (by norm_num) (by norm_num) (by norm_num)⟩

/-- C5: under CDFs that are monotone, bounded by one and equal to one half
at zero (as the scipy normal and Student-t CDFs are), the two-sided
p-value 2 * (1 - CDF |t|) lies in [0, 1] for every sample size and test
statistic. -/
theorem C5_p_value_in_unit_interval (cdfN : ℝ → ℝ) (cdfT : ℕ → ℝ → ℝ)
    (n : ℕ) (t : ℝ)
    (hN0 : cdfN 0 = 1/2) (hNmono : Monotone cdfN) (hN1 : ∀ x, cdfN x ≤ 1)
    (hT0 : ∀ df, cdfT df 0 = 1/2) (hTmono : ∀ df, Monotone (cdfT df))
    (hT1 : ∀ df x, cdfT df x ≤ 1) :
    0 ≤ p_value cdfN cdfT n t ∧ p_value cdfN cdfT n t ≤ 1 := by
  unfold p_value
  split
  · have h1 : 1/2 ≤ cdfN |t| := by
      calc (1:ℝ)/2 = cdfN 0 := hN0.symm
        _ ≤ cdfN |t| := hNmono (abs_nonneg t)
    have h2 := hN1 |t|
    constructor <;> linarith
  · have h1 : 1/2 ≤ cdfT (n - 1) |t| := by
      calc (1:ℝ)/2 = cdfT (n - 1) 0 := (hT0 (n - 1)).symm
        _ ≤ cdfT (n - 1) |t| := hTmono (n - 1) (abs_nonneg t)
    have h2 := hT1 (n - 1) |t|
    constructor <;> linarith

/-- Witness for C5 with the constant one-half CDFs at n = 5, t = 3. -/
theorem C5_p_value_in_unit_interval_witness :
    ((fun _ : ℝ => (1:ℝ)/2) 0 = 1/2 ∧
      Monotone (fun _ : ℝ => (1:ℝ)/2) ∧
      (∀ x : ℝ, (fun _ : ℝ => (1:ℝ)/2) x ≤ 1)) ∧
    (0 ≤ p_value (fun _ => 1/2) (fun _ _ => 1/2) 5 3 ∧
      p_value (fun _ => 1/2) (fun _ _ => 1/2) 5 3 ≤ 1) :=
  ⟨⟨rfl, monotone_const, fun _ => by norm_num⟩,
    C5_p_value_in_unit_interval (fun _ => 1/2) (fun _ _ => 1/2) 5 3
      rfl monotone_const (fun _ => by norm_num)
      (fun _ => rfl) (fun _ => monotone_const) (fun _ _ => by norm_num)⟩

/-- C6 evaluation: the raw-sample parser rejects the non-numeric token of
the text "48, abc, 50" but accepts the single-token text "5" — a sequence
of length 1, below the claimed minimum of 2 — without any error; on the
default seven-element sample it yields mean 50 and, with the Bessel
divisor n - 1 = 6, sample variance 60 / 6 = 10. -/
theorem C6_parse_and_reduce :
    parseSample badRawText = Except.error (ParseError.badToken abcToken) ∧
    parseSample singletonRawText = Except.ok [(5:ℚ)] ∧
    ([(5:ℚ)]).length < 2 ∧
    parseSample defaultRawText = Except.ok [48, 52, 45, 55, 50, 49, 51] ∧
    sampleMean [48, 52, 45, 55, 50, 49, 51] = 50 ∧
    sampleVar [48, 52, 45, 55, 50, 49, 51] = 10 := by
  refine ⟨rfl, rfl, by norm_num, rfl, ?_, ?_⟩
  · simp [sampleMean]
    norm_num
  · simp [sampleVar, sampleMean]
    norm_num

/-- C7 counterexample: at criticalValue 2, stdDev 3 and target margin of
error -1, the N-Optimizer raises no error and produces the sample-size
result 36 in its output. -/
theorem C7_no_domain_check_counterexample :
    required_n 2 3 (-1) = 36 ∧
    ((required_n 2 3 (-1) : ℤ) : ℝ) ∈ n_optimizer_display 2 3 (-1) := by
  constructor
  · unfold required_n
    norm_num
  · simp [n_optimizer_display]

/-- C7 amended: the planner performs no domain check on the target margin
of error — it is a total function, and a negated target produces exactly
the sample-size result of its absolute value. -/
theorem C7_amended_total_planner (cv sd tmoe : ℝ) :
    required_n cv sd (-tmoe) = required_n cv sd tmoe := by
  unfold required_n
  rw [div_neg, neg_sq]

/-- C8: with the null value left at its default (the sample mean), the
test statistic is zero, the p-value is one under any CDFs equal to one
half at zero (as the scipy normal and Student-t CDFs are), and the result
is not significant. -/
theorem C8_default_null_trivial (cdfN : ℝ → ℝ) (cdfT : ℕ → ℝ → ℝ)
    (mean se : ℝ) (n : ℕ)
    (hN0 : cdfN 0 = 1/2) (hT0 : ∀ df, cdfT df 0 = 1/2) :
    test_stat mean mean se = 0 ∧
    p_value cdfN cdfT n (test_stat mean mean se) = 1 ∧
    ¬ significant (p_value cdfN cdfT n (test_stat mean mean se)) := by
  have h0 : test_stat mean mean se = 0 := by
    unfold test_stat
    simp
  have hp : p_value cdfN cdfT n (test_stat mean mean se) = 1 := by
    rw [h0]
    unfold p_value
    split
    · rw [abs_zero, hN0]; norm_num
    · rw [abs_zero, hT0]; norm_num
  refine ⟨h0, hp, ?_⟩
  rw [hp]
  unfold significant
  norm_num

/-- Witness for C8 with the constant one-half CDFs at mean 50, standard
error 2, n = 7. -/
theorem C8_default_null_trivial_witness :
    ((fun _ : ℝ => (1:ℝ)/2) 0 = 1/2 ∧
      (∀ df : ℕ, (fun (_ : ℕ) (_ : ℝ) => (1:ℝ)/2) df 0 = 1/2)) ∧
    (test_stat 50 50 2 = 0 ∧
      p_value (fun _ => 1/2) (fun _ _ => 1/2) 7 (test_stat 50 50 2) = 1 ∧
      ¬ significant (p_value (fun _ => 1/2) (fun _ _ => 1/2) 7 (test_stat 50 50 2))) :=
  ⟨⟨rfl, fun _ => rfl⟩,
    C8_default_null_trivial (fun _ => 1/2) (fun _ _ => 1/2) 50 2 7
      rfl (fun _ => rfl)⟩

/-- C9: on the perfectly collinear pairs x = [1,2,3,4,5],
y = [2,4,6,8,10], the regression engine returns slope 2, intercept 0,
correlation 1, r squared 1, and the all-zero residual sequence. -/
theorem C9_collinear_regression :
    slope [1,2,3,4,5] [2,4,6,8,10] = 2 ∧
    intercept [1,2,3,4,5] [2,4,6,8,10] = 0 ∧
    r_value [1,2,3,4,5] [2,4,6,8,10] = 1 ∧
    r_squared [1,2,3,4,5] [2,4,6,8,10] = 1 ∧
    residuals [1,2,3,4,5] [2,4,6,8,10] = [0,0,0,0,0] := by
  have hsxy : sxy [1,2,3,4,5] [2,4,6,8,10] = 20 := by
    simp [sxy, sampleMean]
    norm_num
  have hx : sxx ([1,2,3,4,5] : List ℚ) = 10 := by
    simp [sxx, sampleMean]
    norm_num
  have hy : sxx ([2,4,6,8,10] : List ℚ) = 40 := by
    simp [sxx, sampleMean]
    norm_num
  have hr : r_value [1,2,3,4,5] [2,4,6,8,10] = 1 := by
    unfold r_value
    rw [hsxy, hx, hy]
    push_cast
    rw [show (10:ℝ) * 40 = 20 ^ 2 by norm_num,
      Real.sqrt_sq (by norm_num : (0:ℝ) ≤ 20)]
    norm_num
  refine ⟨?_, ?_, hr, ?_, ?_⟩
  · simp [slope, hsxy, hx]
    norm_num
  · simp [intercept, slope, sxy, sxx, sampleMean]
    norm_num
  · unfold r_squared
    rw [hr]
    norm_num
  · simp [residuals, predictions, slope, sxy, sxx, sampleMean, intercept]
    norm_num

/-- Sum of pairwise differences over zipped lists of equal length. -/
theorem sum_zip_sub (l1 l2 : List ℚ) (h : l1.length = l2.length) :
    ((l1.zip l2).map (fun p => p.1 - p.2)).sum = l1.sum - l2.sum := by
  induction l1 generalizing l2 with
  | nil =>
    have h2 : l2 = [] := by
      cases l2 with
      | nil => rfl
      | cons b t => simp at h
    subst h2
    simp
  | cons a t ih =>
    cases l2 with
    | nil => simp at h
    | cons b t2 =>
      have ht : t.length = t2.length := by simpa using h
      simp [ih t2 ht]
      ring

/-- Sum of an affine image of a list. -/
theorem sum_map_affine (m b : ℚ) (l : List ℚ) :
    (l.map (fun i => m * i + b)).sum = m * l.sum + l.length * b := by
  induction l with
  | nil => simp
  | cons a t ih =>
    simp [ih]
    ring

/-- C10: for equal-length samples of length at least 2 with x not
constant, the fitted line passes through the point of means, and the
residuals sum to zero. -/
theorem C10_fit_through_means (x y : List ℚ) (hlen : x.length = y.length)
    (h2 : 2 ≤ x.length) (hx : sxx x ≠ 0) :
    slope x y * sampleMean x + intercept x y = sampleMean y ∧
    (residuals x y).sum = 0 := by
  have hn0 : (x.length : ℚ) ≠ 0 := Nat.cast_ne_zero.mpr (by omega)
  have hfirst : slope x y * sampleMean x + intercept x y = sampleMean y := by
    unfold intercept
    ring
  refine ⟨hfirst, ?_⟩
  unfold residuals predictions
  rw [sum_zip_sub _ _ (by simp [hlen])]
  rw [sum_map_affine]
  unfold intercept sampleMean
  have hL : (y.length : ℚ) = (x.length : ℚ) := by exact_mod_cast hlen.symm
  rw [hL]
  field_simp

/-- Witness for C10 at x = [1,2,3], y = [1,2,4]. -/
theorem C10_fit_through_means_witness :
    (([1,2,3] : List ℚ).length = ([1,2,4] : List ℚ).length ∧
      2 ≤ ([1,2,3] : List ℚ).length ∧ sxx ([1,2,3] : List ℚ) ≠ 0) ∧
    (slope [1,2,3] [1,2,4] * sampleMean [1,2,3] + intercept [1,2,3] [1,2,4] =
        sampleMean [1,2,4] ∧
      (residuals [1,2,3] [1,2,4]).sum = 0) :=
  ⟨⟨rfl, by decide, by simp [sxx, sampleMean]; norm_num⟩,
    C10_fit_through_means [1,2,3] [1,2,4] rfl (by decide)
      (by simp [sxx, sampleMean]; norm_num)⟩

end DecisionStatistics
